import Mathlib

/-!
Shallow embedding of the `psg_lite` PSG sound-synthesis crate (`src/lib.rs`)
and verification of its specification claims.

Modelling conventions:
* Rust unsigned machine integers (`u8`, `u16`, `u32`, `u64`) are modelled as
  `Nat`, with an explicit `% 2 ^ w` exactly where the source operation can
  wrap (release-profile wrapping semantics).  Where a result provably fits
  its width (e.g. a `u64` product of a `u32` by a `u16`), no reduction is
  written, mirroring the fact that the source operation cannot overflow.
* Rust signed integers (`i32`, `i64`) are modelled as `Int`, with `wrapInt`
  applied where the source arithmetic is performed at that width.
* Rust panics (`assert!` failures, out-of-bounds indexing) are modelled by
  returning `none` from the corresponding operation; a successful call
  returns `some` of the updated state.  Arithmetic-overflow debug panics are
  not aborts in the release profile and are modelled as wrapping.
* The `bitflags` type `Output` is modelled as a `Nat` holding the flag bits
  (`NONE = 0`, `TONE = 1`, `NOISE = 2`); `a.contains(b)` is `a &&& b = b`.
* The Rust array `[Channel; 3]` is modelled as a `List Channel` (of length 3
  in every reachable state); `iter_mut().fold` becomes the accumulating
  recursion `mixChannels`.
-/

namespace PsgLite

/-- Two's-complement wrap of an integer to width `w` (semantics of Rust
release-profile wrapping arithmetic on `iw`). -/
def wrapInt (w : Nat) (x : Int) : Int :=
  (x + 2 ^ (w - 1)) % 2 ^ w - 2 ^ (w - 1)

/-- The `Output` flag constant `TONE = 0b01`. -/
def TONE : Nat := 1

/-- The `Output` flag constant `NOISE = 0b10`. -/
def NOISE : Nat := 2

/-- State of `ToneGenerator` (`src/lib.rs`, lines 92-99). -/
structure ToneGenerator where
  clock_rate : Nat      -- u32
  sample_rate_x8 : Nat  -- u32
  error : Int           -- i64
  period_min : Nat      -- u16
  source : Nat          -- u64
  output : Nat          -- Output (u8 flag bits)
  deriving DecidableEq, Repr

/-- `ToneGenerator::new` (`src/lib.rs`, lines 102-114).
`sample_rate * 8` and `sample_rate_x8 * 2` are `u32` products; the period
is cast `as u16`; the `u64` product `period * sample_rate_x8` cannot wrap
(it is below `2 ^ 48`). -/
def ToneGenerator.new (clock_rate sample_rate : Nat) : ToneGenerator :=
  let sample_rate_x8 := sample_rate * 8 % 2 ^ 32
  let period := (clock_rate / (sample_rate_x8 * 2 % 2 ^ 32) + 1) % 2 ^ 16
  let source := period * sample_rate_x8
  { clock_rate := clock_rate
    sample_rate_x8 := sample_rate_x8
    error := (clock_rate : Int)
    period_min := period
    source := source
    output := 0 }

/-- `ToneGenerator::set_period` (`src/lib.rs`, lines 116-120); the
`assert!(period < 4096)` abort is `none`.  The `u64` product
`sample_rate_x8 * period` cannot wrap (below `2 ^ 48`). -/
def ToneGenerator.setPeriod (t : ToneGenerator) (period : Nat) :
    Option ToneGenerator :=
  if period < 4096 then
    some { t with source := t.sample_rate_x8 * max period t.period_min }
  else
    none

/-- `ToneGenerator::update` (`src/lib.rs`, lines 122-129): subtract the
clock rate from the `i64` error accumulator; on underflow below zero add
`source` and toggle the `TONE` bit; return the (updated) output flags. -/
def ToneGenerator.update (t : ToneGenerator) : ToneGenerator × Nat :=
  let e := wrapInt 64 (t.error - (t.clock_rate : Int))
  if e < 0 then
    let t1 := { t with error := wrapInt 64 (e + (t.source : Int)),
                       output := t.output ^^^ TONE }
    (t1, t1.output)
  else
    ({ t with error := e }, t.output)

/-- State of `Channel` (`src/lib.rs`, lines 132-136). -/
structure Channel where
  generator : ToneGenerator
  volume : Nat  -- u8
  mode : Nat    -- Output (u8 flag bits)
  deriving DecidableEq, Repr

/-- `Channel::new` (`src/lib.rs`, lines 139-145). -/
def Channel.new (clock_rate sample_rate : Nat) : Channel :=
  { generator := ToneGenerator.new clock_rate sample_rate
    volume := 0
    mode := 0 }

/-- `Channel::set_period` (`src/lib.rs`, lines 147-149). -/
def Channel.setPeriod (c : Channel) (period : Nat) : Option Channel :=
  (c.generator.setPeriod period).map fun g => { c with generator := g }

/-- `Channel::set_mode` (`src/lib.rs`, lines 151-153). -/
def Channel.setMode (c : Channel) (mode : Nat) : Channel :=
  { c with mode := mode }

/-- `Channel::set_volume` (`src/lib.rs`, lines 155-158); the
`assert!(volume < 16)` abort is `none`. -/
def Channel.setVolume (c : Channel) (volume : Nat) : Option Channel :=
  if volume < 16 then some { c with volume := volume } else none

/-- `Channel::update` (`src/lib.rs`, lines 160-166): advance the tone
generator, OR its flags with the shared noise flags, and return `0` when
the combination contains every bit of `mode`, else the volume. -/
def Channel.update (c : Channel) (noise : Nat) : Channel × Nat :=
  let r := c.generator.update
  ({ c with generator := r.1 },
   if (r.2 ||| noise) &&& c.mode = c.mode then 0 else c.volume)

/-- State of `NoiseGenerator` (`src/lib.rs`, lines 169-176). -/
structure NoiseGenerator where
  clock_rate : Nat       -- u32
  sample_rate_x16 : Nat  -- u32
  error : Int            -- i32
  period_min : Nat       -- u8
  source : Nat           -- u32
  shift : Nat            -- u16
  deriving DecidableEq, Repr

/-- `NoiseGenerator::new` (`src/lib.rs`, lines 179-191).
`sample_rate * 16` is a `u32` product; `clock_rate / sample_rate_x16` is
cast `as u8`; `period_min + 1` is a `u8` sum (wraps at 255); the product
with `sample_rate_x16` is a `u32` product; `clock_rate as i32` wraps. -/
def NoiseGenerator.new (clock_rate sample_rate : Nat) : NoiseGenerator :=
  let sample_rate_x16 := sample_rate * 16 % 2 ^ 32
  let period_min := clock_rate / sample_rate_x16 % 2 ^ 8
  let source := (period_min + 1) % 2 ^ 8 * sample_rate_x16 % 2 ^ 32
  { clock_rate := clock_rate
    sample_rate_x16 := sample_rate_x16
    error := wrapInt 32 (clock_rate : Int)
    period_min := period_min
    source := source
    shift := 1 }

/-- `NoiseGenerator::set_period` (`src/lib.rs`, lines 193-197); the
`assert!(period < 32)` abort is `none`.  `period + 1` is a `u8` sum and
the product a `u32` product, both wrapping. -/
def NoiseGenerator.setPeriod (n : NoiseGenerator) (period : Nat) :
    Option NoiseGenerator :=
  if period < 32 then
    some { n with
           source := (max n.period_min period + 1) % 2 ^ 8
                       * n.sample_rate_x16 % 2 ^ 32 }
  else
    none

/-- `NoiseGenerator::update` (`src/lib.rs`, lines 199-210): subtract the
clock rate from the `i32` error accumulator; on underflow below zero add
`source` (as `i32`) and step the 16-bit LFSR
`shift = (shift >> 1) | (shift ^ (shift >> 3)) << 15`; return the `NOISE`
flag when bit 0 of the (updated) register is set, else no flags. -/
def NoiseGenerator.update (n : NoiseGenerator) : NoiseGenerator × Nat :=
  let e := wrapInt 32 (n.error - wrapInt 32 (n.clock_rate : Int))
  let n1 :=
    if e < 0 then
      { n with error := wrapInt 32 (e + wrapInt 32 (n.source : Int)),
               shift := (n.shift >>> 1) |||
                          (n.shift ^^^ n.shift >>> 3) <<< 15 % 2 ^ 16 }
    else
      { n with error := e }
  (n1, if n1.shift &&& 1 ≠ 0 then NOISE else 0)

/-- State of `SoundGenerator` (`src/lib.rs`, lines 214-219); the array
`[Channel; 3]` is a length-3 list. -/
structure SoundGenerator where
  clock_rate : Nat   -- u32
  sample_rate : Nat  -- u32
  channels : List Channel
  noise : NoiseGenerator
  deriving DecidableEq, Repr

/-- `SoundGenerator::new` (`src/lib.rs`, lines 230-237);
`array::from_fn(|_| Channel::new(..))` builds three identical channels. -/
def SoundGenerator.new (clock_rate sample_rate : Nat) : SoundGenerator :=
  { clock_rate := clock_rate
    sample_rate := sample_rate
    channels := List.replicate 3 (Channel.new clock_rate sample_rate)
    noise := NoiseGenerator.new clock_rate sample_rate }

/-- `SoundGenerator::clock_rate` (`src/lib.rs`, lines 243-245). -/
def SoundGenerator.clockRate (g : SoundGenerator) : Nat := g.clock_rate

/-- `SoundGenerator::sample_rate` (`src/lib.rs`, lines 251-253). -/
def SoundGenerator.sampleRate (g : SoundGenerator) : Nat := g.sample_rate

/-- `SoundGenerator::set_period` (`src/lib.rs`, lines 260-262); the
out-of-bounds indexing panic for `channel ≥ 3` is `none`. -/
def SoundGenerator.setPeriod (g : SoundGenerator) (channel period : Nat) :
    Option SoundGenerator :=
  if h : channel < g.channels.length then
    (g.channels[channel].setPeriod period).map fun c =>
      { g with channels := g.channels.set channel c }
  else
    none

/-- `SoundGenerator::set_volume` (`src/lib.rs`, lines 269-271). -/
def SoundGenerator.setVolume (g : SoundGenerator) (channel volume : Nat) :
    Option SoundGenerator :=
  if h : channel < g.channels.length then
    (g.channels[channel].setVolume volume).map fun c =>
      { g with channels := g.channels.set channel c }
  else
    none

/-- `SoundGenerator::set_mode` (`src/lib.rs`, lines 278-280). -/
def SoundGenerator.setMode (g : SoundGenerator) (channel mode : Nat) :
    Option SoundGenerator :=
  if h : channel < g.channels.length then
    some { g with channels := g.channels.set channel
                                (g.channels[channel].setMode mode) }
  else
    none

/-- `SoundGenerator::set_noise_period` (`src/lib.rs`, lines 286-288). -/
def SoundGenerator.setNoisePeriod (g : SoundGenerator) (period : Nat) :
    Option SoundGenerator :=
  (g.noise.setPeriod period).map fun n => { g with noise := n }

/-- The constant `OUTPUT_VOLUME_TABLE_i16` generated by
`output_mixer_impl! {i16, 1 << 1}` (`src/lib.rs`, lines 316-381): each of
the sixteen listed values divided by the divisor 2 in `i16` arithmetic
(truncating division; all values are non-negative and below `2 ^ 15`). -/
def OUTPUT_VOLUME_TABLE_i16 : List Int :=
  [0, 170, 241, 341, 482, 682, 965, 1365,
   1930, 2730, 3861, 5461, 7723, 10922, 15446, 21845].map (fun v => v / 2)

/-- The `iter_mut().fold` of `next_sample` (`src/lib.rs`, lines 363-371):
walk the channels in order, threading the accumulated sum (started from
`Default::default() = 0`) and the mutated channel states; each step adds
the table entry indexed by `channel.update(noise)`.  The source's
`get_unchecked` lookup is modelled by `List.getD`; claim C10 shows the
index is always within the table. -/
def mixChannels (noise : Nat) (acc : Int) :
    List Channel → Int × List Channel
  | [] => (acc, [])
  | c :: rest =>
    let r := c.update noise
    let q := mixChannels noise
               (acc + OUTPUT_VOLUME_TABLE_i16.getD r.2 0) rest
    (q.1, r.1 :: q.2)

/-- `<i16 as OutputSample<i16>>::next_sample` (`src/lib.rs`, lines
362-372): advance the shared noise generator once, then fold over the
three channels with that noise flag value. -/
def SoundGenerator.nextSampleI16 (g : SoundGenerator) :
    Int × SoundGenerator :=
  let nr := g.noise.update
  let m := mixChannels nr.2 0 g.channels
  (m.1, { g with noise := nr.1, channels := m.2 })

/-- Run `n` successive `next_sample::<i16>` calls from `g` and count how
many returned samples are zero (first component) and non-zero (second
component) — the measurement made by the repository's test
(`src/lib.rs`, lines 392-417). -/
def runCount : Nat → SoundGenerator → Nat × Nat
  | 0, _ => (0, 0)
  | n + 1, g =>
    let r := g.nextSampleI16
    let p := runCount n r.2
    if r.1 = 0 then (p.1 + 1, p.2) else (p.1, p.2 + 1)

/-- State family for the repository-test scenario (clock rate 20,000,000,
sample rate 2,500,000, channel 0 at mode `TONE`, volume 15, period 1 —
clamped to `period_min = 1` — channels 1 and 2 silent): the tone divider
of each channel with error accumulator 0, source 20,000,000 and output
flags `o`. -/
def c9Tone (o : Nat) : ToneGenerator :=
  { clock_rate := 20000000, sample_rate_x8 := 20000000, error := 0,
    period_min := 1, source := 20000000, output := o }

/-- Full engine state family for the repository-test scenario, after the
initial dummy sample: tone outputs `o0 o1 o2`, noise error accumulator
`ne` (alternating between 0 and 20,000,000) and noise shift register
`sh`. -/
def c9State (o0 o1 o2 : Nat) (ne : Int) (sh : Nat) : SoundGenerator :=
  { clock_rate := 20000000, sample_rate := 2500000,
    channels := [⟨c9Tone o0, 15, TONE⟩, ⟨c9Tone o1, 0, 0⟩, ⟨c9Tone o2, 0, 0⟩],
    noise := { clock_rate := 20000000, sample_rate_x16 := 40000000,
               error := ne, period_min := 0, source := 40000000,
               shift := sh } }

/-- The configuration sequence of the repository's test (`src/lib.rs`,
lines 392-401): construct the engine at clock rate 20,000,000 and sample
rate 2,500,000, then `set_mode(0, TONE)`, `set_volume(0, 15)`,
`set_period(0, 1)`. -/
def c9Config : Option SoundGenerator :=
  (SoundGenerator.new 20000000 2500000).setMode 0 TONE >>= fun g =>
    g.setVolume 0 15 >>= fun g => g.setPeriod 0 1

/-- Reachable tone-divider states for a fixed clock/sample-rate pair: the
constructed state, closed under successful `set_period` calls and under
`update` (sample advance). -/
inductive ToneReachable (clock_rate sample_rate : Nat) : ToneGenerator → Prop
  | init : ToneReachable clock_rate sample_rate
      (ToneGenerator.new clock_rate sample_rate)
  | set_step (t t1 : ToneGenerator) (p : Nat)
      (h : ToneReachable clock_rate sample_rate t)
      (hs : t.setPeriod p = some t1) :
      ToneReachable clock_rate sample_rate t1
  | update_step (t : ToneGenerator)
      (h : ToneReachable clock_rate sample_rate t) :
      ToneReachable clock_rate sample_rate (t.update).1

/-- Engine states reachable through the public operations: construction,
the successful configuration setters, and sample production. -/
inductive EngineReachable : SoundGenerator → Prop
  | init (clock_rate sample_rate : Nat) :
      EngineReachable (SoundGenerator.new clock_rate sample_rate)
  | period_step (g g1 : SoundGenerator) (ch p : Nat)
      (h : EngineReachable g) (hs : g.setPeriod ch p = some g1) :
      EngineReachable g1
  | volume_step (g g1 : SoundGenerator) (ch v : Nat)
      (h : EngineReachable g) (hs : g.setVolume ch v = some g1) :
      EngineReachable g1
  | mode_step (g g1 : SoundGenerator) (ch m : Nat)
      (h : EngineReachable g) (hs : g.setMode ch m = some g1) :
      EngineReachable g1
  | noise_step (g g1 : SoundGenerator) (p : Nat)
      (h : EngineReachable g) (hs : g.setNoisePeriod p = some g1) :
      EngineReachable g1
  | sample_step (g : SoundGenerator) (h : EngineReachable g) :
      EngineReachable (g.nextSampleI16).2

/-! ### General lemmas about the embedding -/

theorem wrapInt_eq_self (w : Nat) (x : Int) (hw : 1 ≤ w)
    (h1 : -(2 ^ (w - 1)) ≤ x) (h2 : x < 2 ^ (w - 1)) : wrapInt w x = x := by
  have hp : (2 : Int) ^ w = 2 ^ (w - 1) * 2 := by
    rw [← pow_succ]
    congr 1
    omega
  have h0 : (0 : Int) ≤ x + 2 ^ (w - 1) := by linarith
  have h3 : x + 2 ^ (w - 1) < 2 ^ w := by
    rw [hp]; linarith
  unfold wrapInt
  rw [Int.emod_eq_of_lt h0 h3]
  ring

theorem ToneGenerator.update_output (t : ToneGenerator) :
    (t.update).2 = t.output ∨ (t.update).2 = t.output ^^^ TONE := by
  rw [ToneGenerator.update]
  split
  · right; rfl
  · left; rfl

theorem ToneGenerator.update_snd_eq (t : ToneGenerator) :
    (t.update).2 = (t.update).1.output := by
  rw [ToneGenerator.update]
  split <;> rfl

theorem Channel.update_snd (c : Channel) (noise : Nat) :
    (c.update noise).2
      = if ((c.generator.update).2 ||| noise) &&& c.mode = c.mode
        then 0 else c.volume := rfl

theorem Channel.update_volume (c : Channel) (noise : Nat) :
    (c.update noise).1.volume = c.volume := rfl

theorem Channel.update_mode (c : Channel) (noise : Nat) :
    (c.update noise).1.mode = c.mode := rfl

theorem NoiseGenerator.update_bit_eq (n : NoiseGenerator) :
    (n.update).2 = if (n.update).1.shift &&& 1 ≠ 0 then NOISE else 0 := rfl

theorem NoiseGenerator.update_bit (n : NoiseGenerator) :
    (n.update).2 = 0 ∨ (n.update).2 = NOISE := by
  rw [NoiseGenerator.update_bit_eq]
  split
  · right; rfl
  · left; rfl

theorem lfsr_formula (s : Nat) :
    (s >>> 1) ||| (s ^^^ s >>> 3) <<< 15 % 2 ^ 16
      = s / 2 ||| (s ^^^ s / 8) % 2 * 2 ^ 15 := by
  have h1 : s >>> 1 = s / 2 := by
    rw [Nat.shiftRight_eq_div_pow]
  have h3 : s >>> 3 = s / 8 := by
    rw [Nat.shiftRight_eq_div_pow]
  have h15 : (s ^^^ s / 8) <<< 15 % 2 ^ 16 = (s ^^^ s / 8) % 2 * 2 ^ 15 := by
    rw [Nat.shiftLeft_eq]
    have : (2 : Nat) ^ 16 = 2 * 2 ^ 15 := by norm_num
    rw [this, Nat.mul_mod_mul_right]
  rw [h1, h3, h15]

/-! ### Claim theorems -/

/-- C2: for all three-channel volume assignments in [0,15], the sum of the
three `i16` volume-table entries is non-negative and never exceeds
`i16::MAX = 32767`; the table entries are the sixteen listed values each
divided by 2, and the maximum sum, attained at volume 15 on all three
channels, is `3 × (21845 / 2) = 32766`. -/
theorem volume_table_sum_within_i16 :
    (∀ a b c : Fin 16,
        0 ≤ OUTPUT_VOLUME_TABLE_i16.getD (a : Nat) 0
              + OUTPUT_VOLUME_TABLE_i16.getD (b : Nat) 0
              + OUTPUT_VOLUME_TABLE_i16.getD (c : Nat) 0
          ∧ OUTPUT_VOLUME_TABLE_i16.getD (a : Nat) 0
              + OUTPUT_VOLUME_TABLE_i16.getD (b : Nat) 0
              + OUTPUT_VOLUME_TABLE_i16.getD (c : Nat) 0 ≤ 32767)
    ∧ OUTPUT_VOLUME_TABLE_i16.getD 15 0 = 21845 / 2
    ∧ OUTPUT_VOLUME_TABLE_i16.getD 15 0 + OUTPUT_VOLUME_TABLE_i16.getD 15 0
        + OUTPUT_VOLUME_TABLE_i16.getD 15 0 = 32766 := by
  decide

/-- C3: a channel's advance returns 0 exactly when the flag set built from
the tone bit and the shared noise bit contains every bit of the channel's
mode (the general rule is the first conjunct), so: mode `NONE` contributes
0 always; mode `TONE` is audible iff the tone bit is 0; mode `NOISE` is
audible iff the noise bit is 0; mode `TONE∪NOISE` is silent iff both bits
are 1; and at volume 15 with mode `TONE∪NOISE`, tone bits 0,1,0,1 and
noise bits 0,0,1,1 give contributions 15,15,15,0. -/
theorem channel_gating_truth_table (ch : Channel) (nb : Nat)
    (hm : ch.mode < 4) (ho : ch.generator.output < 2)
    (hn : nb = 0 ∨ nb = NOISE) :
    ((ch.update nb).2
        = if ((ch.generator.update).2 ||| nb) &&& ch.mode = ch.mode
          then 0 else ch.volume)
    ∧ (ch.mode = 0 → (ch.update nb).2 = 0)
    ∧ (ch.mode = TONE →
        ((ch.generator.update).2 &&& TONE = TONE → (ch.update nb).2 = 0)
        ∧ ((ch.generator.update).2 &&& TONE = 0 →
            (ch.update nb).2 = ch.volume))
    ∧ (ch.mode = NOISE →
        (nb = NOISE → (ch.update nb).2 = 0)
        ∧ (nb = 0 → (ch.update nb).2 = ch.volume))
    ∧ (ch.mode = (TONE ||| NOISE) →
        ((ch.generator.update).2 &&& TONE = TONE ∧ nb = NOISE →
            (ch.update nb).2 = 0)
        ∧ ((ch.generator.update).2 &&& TONE = 0 ∨ nb = 0 →
            (ch.update nb).2 = ch.volume))
    ∧ (((⟨⟨0, 0, 0, 0, 0, 0⟩, 15, TONE ||| NOISE⟩ : Channel).update 0).2 = 15
        ∧ ((⟨⟨0, 0, 0, 0, 0, TONE⟩, 15, TONE ||| NOISE⟩ : Channel).update
              0).2 = 15
        ∧ ((⟨⟨0, 0, 0, 0, 0, 0⟩, 15, TONE ||| NOISE⟩ : Channel).update
              NOISE).2 = 15
        ∧ ((⟨⟨0, 0, 0, 0, 0, TONE⟩, 15, TONE ||| NOISE⟩ : Channel).update
              NOISE).2 = 0) := by
  obtain ⟨g, v, m⟩ := ch
  dsimp only at hm ho ⊢
  have ht : (g.update).2 = 0 ∨ (g.update).2 = 1 := by
    rcases g.update_output with h | h <;> rw [h]
    · omega
    · have h0 : g.output = 0 ∨ g.output = 1 := by omega
      rcases h0 with h0 | h0 <;> rw [h0] <;> decide
  refine ⟨Channel.update_snd _ _, ?_, ?_, ?_, ?_, by decide⟩ <;>
      intro hmode <;>
      rw [hmode] at hm ⊢ <;>
      rcases hn with rfl | rfl <;>
      rcases ht with ht | ht <;>
      simp only [Channel.update_snd, ht, hmode] <;>
      first
        | rfl
        | (constructor <;> intro hb <;>
            first
              | rfl
              | (exact absurd hb (by decide)))

/-- Witness for C3 at a concrete channel: mode `TONE∪NOISE`, volume 15,
tone bit 1, noise bit 1 gives contribution 0. -/
theorem channel_gating_truth_table_witness :
    (((⟨⟨0, 0, 0, 0, 0, TONE⟩, 15, TONE ||| NOISE⟩ : Channel).update
        NOISE).2 = 0) :=
  ((channel_gating_truth_table ⟨⟨0, 0, 0, 0, 0, TONE⟩, 15, TONE ||| NOISE⟩
      NOISE (by decide) (by decide) (Or.inr rfl)).2.2.2.2.1
    rfl).1 ⟨by decide, rfl⟩

theorem wrapInt32_eq_self (x : Int) (h1 : -(2 ^ 31) ≤ x) (h2 : x < 2 ^ 31) :
    wrapInt 32 x = x :=
  wrapInt_eq_self 32 x (by norm_num) h1 h2

theorem wrapInt32_natCast (m : Nat) (h : m < 2 ^ 31) :
    wrapInt 32 (m : Int) = m := by
  apply wrapInt32_eq_self
  · have h0 : (0 : Int) ≤ (m : Int) := Int.natCast_nonneg m
    have hp : (0 : Int) ≤ 2 ^ 31 := by positivity
    linarith
  · exact_mod_cast h

/-- C4: a noise-divider advance first subtracts the clock rate from the
error accumulator; when the result is negative it adds `source` back and
replaces the 16-bit shift register by
`(register >> 1) OR ((bit 0 of (register XOR (register >> 3))) << 15)`
(only bit 0 of the XOR feeds back; the result stays within 16 bits);
otherwise the register is unchanged; the returned flag is `NOISE` iff bit
0 of the possibly-updated register is set.  The hypotheses say the fields
hold values representable in their machine widths (`u16` register, `i32`
error with no overflow in this call's subtraction, `u32` clock and source
within `i32` range). -/
theorem noise_update_lfsr_step (n : NoiseGenerator)
    (hsh : n.shift < 2 ^ 16)
    (hc : n.clock_rate < 2 ^ 31)
    (hsrc : n.source < 2 ^ 31)
    (he1 : -(2 ^ 31) + (n.clock_rate : Int) ≤ n.error)
    (he2 : n.error < 2 ^ 31) :
    (n.error - (n.clock_rate : Int) < 0 →
        (n.update).1.shift
            = (n.shift / 2 ||| (n.shift ^^^ n.shift / 8) % 2 * 2 ^ 15)
        ∧ (n.update).1.shift < 2 ^ 16
        ∧ (n.update).1.error = n.error - n.clock_rate + n.source)
    ∧ (0 ≤ n.error - (n.clock_rate : Int) →
        (n.update).1.shift = n.shift
        ∧ (n.update).1.error = n.error - n.clock_rate)
    ∧ ((n.update).2 = if (n.update).1.shift % 2 = 1 then NOISE else 0) := by
  have hc0 : (0 : Int) ≤ (n.clock_rate : Int) := Int.natCast_nonneg _
  have hs0 : (0 : Int) ≤ (n.source : Int) := Int.natCast_nonneg _
  have hcw : wrapInt 32 (n.clock_rate : Int) = n.clock_rate :=
    wrapInt32_natCast _ hc
  have hsw : wrapInt 32 (n.source : Int) = n.source :=
    wrapInt32_natCast _ hsrc
  have hsrc' : (n.source : Int) < 2 ^ 31 := by exact_mod_cast hsrc
  have hew : wrapInt 32 (n.error - (n.clock_rate : Int))
      = n.error - n.clock_rate := by
    apply wrapInt32_eq_self <;> linarith
  have hupd : n.update
      = (if wrapInt 32 (n.error - wrapInt 32 (n.clock_rate : Int)) < 0 then
          { n with
            error := wrapInt 32
              (wrapInt 32 (n.error - wrapInt 32 (n.clock_rate : Int))
                + wrapInt 32 (n.source : Int)),
            shift := (n.shift >>> 1) |||
                       (n.shift ^^^ n.shift >>> 3) <<< 15 % 2 ^ 16 }
        else
          { n with
            error := wrapInt 32 (n.error - wrapInt 32 (n.clock_rate : Int)) },
        if (if wrapInt 32 (n.error - wrapInt 32 (n.clock_rate : Int)) < 0 then
             { n with
               error := wrapInt 32
                 (wrapInt 32 (n.error - wrapInt 32 (n.clock_rate : Int))
                   + wrapInt 32 (n.source : Int)),
               shift := (n.shift >>> 1) |||
                          (n.shift ^^^ n.shift >>> 3) <<< 15 % 2 ^ 16 }
           else
             { n with
               error := wrapInt 32
                 (n.error - wrapInt 32 (n.clock_rate : Int)) }).shift &&& 1
             ≠ 0
        then NOISE else 0) := by
    rw [NoiseGenerator.update]
  refine ⟨?_, ?_, ?_⟩
  · intro hneg
    rw [hupd]
    rw [hcw, hew, if_pos hneg]
    refine ⟨lfsr_formula n.shift, ?_, ?_⟩
    · rw [lfsr_formula n.shift]
      apply Nat.or_lt_two_pow
      · omega
      · have : (n.shift ^^^ n.shift / 8) % 2 < 2 := Nat.mod_lt _ (by norm_num)
        calc (n.shift ^^^ n.shift / 8) % 2 * 2 ^ 15
            ≤ 1 * 2 ^ 15 := by
              apply Nat.mul_le_mul_right
              omega
          _ < 2 ^ 16 := by norm_num
    · show wrapInt 32 (n.error - n.clock_rate + wrapInt 32 (n.source : Int))
          = n.error - n.clock_rate + n.source
      rw [hsw]
      apply wrapInt32_eq_self <;> linarith
  · intro hpos
    rw [hupd]
    rw [hcw, hew, if_neg (by linarith)]
    exact ⟨rfl, rfl⟩
  · rw [NoiseGenerator.update_bit_eq, Nat.and_one_is_mod]
    exact if_congr (by omega) rfl rfl

/-- Witness for C4 at the noise generator constructed with clock rate
2,000,000 and sample rate 48,000: the first advance subtracts the clock
rate, leaves the error non-negative, keeps the register at 1, and returns
the `NOISE` flag. -/
theorem noise_update_lfsr_step_witness :
    (NoiseGenerator.new 2000000 48000).error - 2000000 ≥ 0
    ∧ ((NoiseGenerator.new 2000000 48000).update).1.shift
        = (NoiseGenerator.new 2000000 48000).shift
    ∧ ((NoiseGenerator.new 2000000 48000).update).1.error
        = (NoiseGenerator.new 2000000 48000).error - 2000000 :=
  ⟨by decide,
   (noise_update_lfsr_step (NoiseGenerator.new 2000000 48000) (by decide)
       (by decide) (by decide) (by decide) (by decide)).2.1 (by decide)⟩

/-- C5 (amended): for positive clock and sample rates such that the
machine arithmetic of the constructor does not truncate — `sample_rate × 16`
fits `u32`, `floor(clock_rate / (sample_rate × 16)) < 255` so the `as u8`
cast and the `u8` increment are exact, `clock_rate` fits `i32`, and the
`u32` source product does not wrap — noise-divider construction produces:
oversampled rate `sample_rate × 16`, `period_min =
floor(clock_rate / (sample_rate × 16))` with no +1 offset, `source =
(period_min + 1) × (sample_rate × 16)`, error accumulator `clock_rate`,
and shift register 1. -/
theorem noise_new_state (clock_rate sample_rate : Nat)
    (_hcp : 1 ≤ clock_rate) (_hsp : 1 ≤ sample_rate)
    (hw : sample_rate * 16 < 2 ^ 32)
    (hpm : clock_rate / (sample_rate * 16) < 255)
    (hc : clock_rate < 2 ^ 31)
    (hsrc : (clock_rate / (sample_rate * 16) + 1) * (sample_rate * 16)
        < 2 ^ 32) :
    NoiseGenerator.new clock_rate sample_rate
      = { clock_rate := clock_rate
          sample_rate_x16 := sample_rate * 16
          error := (clock_rate : Int)
          period_min := clock_rate / (sample_rate * 16)
          source := (clock_rate / (sample_rate * 16) + 1) * (sample_rate * 16)
          shift := 1 } := by
  have h16 : sample_rate * 16 % 2 ^ 32 = sample_rate * 16 :=
    Nat.mod_eq_of_lt hw
  have hpm' : clock_rate / (sample_rate * 16) % 2 ^ 8
      = clock_rate / (sample_rate * 16) := Nat.mod_eq_of_lt (by omega)
  have hpm1 : (clock_rate / (sample_rate * 16) + 1) % 2 ^ 8
      = clock_rate / (sample_rate * 16) + 1 := Nat.mod_eq_of_lt (by omega)
  simp only [NoiseGenerator.new, h16, hpm', hpm1, Nat.mod_eq_of_lt hsrc,
    wrapInt32_natCast _ hc]

/-- Witness for C5 (amended) at clock rate 2,000,000 and sample rate
48,000: the constructed state matches the specified formulas exactly. -/
theorem noise_new_state_witness :
    NoiseGenerator.new 2000000 48000
      = { clock_rate := 2000000
          sample_rate_x16 := 48000 * 16
          error := (2000000 : Int)
          period_min := 2000000 / (48000 * 16)
          source := (2000000 / (48000 * 16) + 1) * (48000 * 16)
          shift := 1 } :=
  noise_new_state 2000000 48000 (by decide) (by decide) (by decide)
    (by decide) (by decide) (by decide)

/-- Counterexample to C5 as stated: at the positive rates clock_rate =
4,096,000 and sample_rate = 1,000, the code's `period_min` is 0, not
`floor(clock_rate / (sample_rate × 16)) = 256` — the `as u8` cast
truncates the quotient. -/
theorem noise_new_period_min_truncates :
    (NoiseGenerator.new 4096000 1000).period_min ≠ 4096000 / (1000 * 16)
    ∧ (NoiseGenerator.new 4096000 1000).period_min = 0
    ∧ 4096000 / (1000 * 16) = 256 := by
  decide

/-- C6: the configuration setters abort (modelled as returning `none`)
exactly on out-of-range input: tone `set_period` iff `period ≥ 4096`,
noise `set_period` iff `period ≥ 32`, `set_volume` iff `volume ≥ 16`, and
the per-channel engine setters additionally iff the channel index is
outside {0,1,2}; on in-range arguments every call returns `some` updated
state (never aborts), and an aborting call produces no mutated state. -/
theorem setters_abort_iff_out_of_range (g : SoundGenerator)
    (hg : g.channels.length = 3)
    (t : ToneGenerator) (nz : NoiseGenerator) (c : Channel)
    (ch p pn v m : Nat) :
    ((t.setPeriod p).isNone ↔ 4096 ≤ p)
    ∧ ((nz.setPeriod pn).isNone ↔ 32 ≤ pn)
    ∧ ((c.setVolume v).isNone ↔ 16 ≤ v)
    ∧ ((g.setPeriod ch p).isNone ↔ (3 ≤ ch ∨ 4096 ≤ p))
    ∧ ((g.setVolume ch v).isNone ↔ (3 ≤ ch ∨ 16 ≤ v))
    ∧ ((g.setMode ch m).isNone ↔ 3 ≤ ch)
    ∧ ((g.setNoisePeriod pn).isNone ↔ 32 ≤ pn) := by
  refine ⟨?_, ?_, ?_, ?_, ?_, ?_, ?_⟩
  · rw [ToneGenerator.setPeriod]
    split <;> simp <;> omega
  · rw [NoiseGenerator.setPeriod]
    split <;> simp <;> omega
  · rw [Channel.setVolume]
    split <;> simp <;> omega
  · rw [SoundGenerator.setPeriod]
    split <;>
      simp_all [Channel.setPeriod, ToneGenerator.setPeriod, apply_ite] <;>
      omega
  · rw [SoundGenerator.setVolume]
    split <;> simp_all [Channel.setVolume, apply_ite] <;> omega
  · rw [SoundGenerator.setMode]
    split <;> simp_all <;> omega
  · rw [SoundGenerator.setNoisePeriod, NoiseGenerator.setPeriod]
    simp [apply_ite]

/-- Witness for C6 at concrete states and arguments: on the freshly
constructed engine, the in-range call `set_period(0, 1)` does not abort
and the out-of-range call `set_period(3, 1)` aborts. -/
theorem setters_abort_iff_out_of_range_witness :
    ¬((SoundGenerator.new 2000000 48000).setPeriod 0 1).isNone
    ∧ ((SoundGenerator.new 2000000 48000).setPeriod 3 1).isNone :=
  ⟨fun h => by
      have h4 := ((setters_abort_iff_out_of_range
        (SoundGenerator.new 2000000 48000) (by decide)
        (ToneGenerator.new 2000000 48000) (NoiseGenerator.new 2000000 48000)
        (Channel.new 2000000 48000) 0 1 0 0 0).2.2.2.1).mp h
      omega,
   ((setters_abort_iff_out_of_range
      (SoundGenerator.new 2000000 48000) (by decide)
      (ToneGenerator.new 2000000 48000) (NoiseGenerator.new 2000000 48000)
      (Channel.new 2000000 48000) 3 1 0 0 0).2.2.2.1).mpr (Or.inl (by omega))⟩

/-- C7 (amended): for every in-range period strictly below the stored
minimum (including period 0), tone `set_period` succeeds and sets
`source = sample_rate_x8 × period_min`, and — provided `period_min < 255`
and the `u32` product does not wrap — noise `set_period` succeeds and sets
`source = (period_min + 1) × sample_rate_x16`; the clamped tone period
`period_min` is at least 1 and the noise division factor `period_min + 1`
is at least 1, so neither divider operates at period 0.  (Without the
no-wrap proviso the claim fails; see the counterexample.) -/
theorem set_period_clamps_below_minimum (t : ToneGenerator)
    (n : NoiseGenerator) (p pn : Nat)
    (hp : p < t.period_min) (hpn : pn < n.period_min)
    (hp4096 : p < 4096) (hpn32 : pn < 32)
    (hnpm : n.period_min < 255)
    (hnw : (n.period_min + 1) * n.sample_rate_x16 < 2 ^ 32) :
    t.setPeriod p
        = some { t with source := t.sample_rate_x8 * t.period_min }
    ∧ n.setPeriod pn
        = some { n with source := (n.period_min + 1) * n.sample_rate_x16 }
    ∧ 1 ≤ t.period_min ∧ 1 ≤ n.period_min + 1 := by
  refine ⟨?_, ?_, by omega, by omega⟩
  · rw [ToneGenerator.setPeriod, if_pos hp4096,
      Nat.max_eq_right (Nat.le_of_lt hp)]
  · rw [NoiseGenerator.setPeriod, if_pos hpn32,
      Nat.max_eq_left (Nat.le_of_lt hpn),
      Nat.mod_eq_of_lt (show n.period_min + 1 < 2 ^ 8 by omega),
      Nat.mod_eq_of_lt hnw]

/-- Witness for C7 (amended): on the dividers constructed with clock rate
2,000,000 and sample rate 48,000 (tone `period_min` = 3, noise
`period_min` = 2), `set_period(0)` succeeds and clamps to the minimum. -/
theorem set_period_clamps_below_minimum_witness :
    (ToneGenerator.new 2000000 48000).setPeriod 0
        = some { ToneGenerator.new 2000000 48000 with
                   source := (ToneGenerator.new 2000000 48000).sample_rate_x8
                               * (ToneGenerator.new 2000000 48000).period_min }
    ∧ (NoiseGenerator.new 2000000 48000).setPeriod 0
        = some { NoiseGenerator.new 2000000 48000 with
                   source :=
                     ((NoiseGenerator.new 2000000 48000).period_min + 1)
                       * (NoiseGenerator.new 2000000 48000).sample_rate_x16 } :=
  ⟨(set_period_clamps_below_minimum (ToneGenerator.new 2000000 48000)
      (NoiseGenerator.new 2000000 48000) 0 0 (by decide) (by decide)
      (by decide) (by decide) (by decide) (by decide)).1,
   (set_period_clamps_below_minimum (ToneGenerator.new 2000000 48000)
      (NoiseGenerator.new 2000000 48000) 0 0 (by decide) (by decide)
      (by decide) (by decide) (by decide) (by decide)).2.1⟩

/-- Counterexample to C7 as stated: with clock rate 4,080,000 and sample
rate 1,000 the noise `period_min` is 255, and the in-range call
`set_period(0)` sets `source` to 0 (the `u8` increment `period_min + 1`
wraps to 0), not to `(period_min + 1) × sample_rate_x16 = 4,096,000` —
the noise divider then operates with a zero source. -/
theorem noise_set_period_source_wraps :
    (NoiseGenerator.new 4080000 1000).period_min = 255
    ∧ ((NoiseGenerator.new 4080000 1000).setPeriod 0).map
        (fun x => x.source) = some 0
    ∧ ((NoiseGenerator.new 4080000 1000).period_min + 1)
        * (NoiseGenerator.new 4080000 1000).sample_rate_x16 = 4096000 := by
  decide

/-- C8: one `next_sample::<i16>` call advances the shared noise divider
exactly once, before any channel; then advances the three channels in
fixed order 0, 1, 2, passing the same noise flag value to each; and
returns the sum (from the default initial value 0, accumulated left to
right) of the output volume table entries indexed by the channels'
contributions, modifying no other state. -/
theorem next_sample_mixing_order (g : SoundGenerator) (c0 c1 c2 : Channel)
    (h : g.channels = [c0, c1, c2]) :
    g.nextSampleI16
      = (0 + OUTPUT_VOLUME_TABLE_i16.getD (c0.update (g.noise.update).2).2 0
           + OUTPUT_VOLUME_TABLE_i16.getD (c1.update (g.noise.update).2).2 0
           + OUTPUT_VOLUME_TABLE_i16.getD (c2.update (g.noise.update).2).2 0,
         { g with
             noise := (g.noise.update).1
             channels := [(c0.update (g.noise.update).2).1,
                          (c1.update (g.noise.update).2).1,
                          (c2.update (g.noise.update).2).1] }) := by
  rw [SoundGenerator.nextSampleI16]
  simp only [h, mixChannels]

/-- Witness for C8 on the freshly constructed engine, whose three channels
are all `Channel.new 2000000 48000`. -/
theorem next_sample_mixing_order_witness :
    (SoundGenerator.new 2000000 48000).nextSampleI16
      = (0 + OUTPUT_VOLUME_TABLE_i16.getD
               ((Channel.new 2000000 48000).update
                 ((SoundGenerator.new 2000000 48000).noise.update).2).2 0
           + OUTPUT_VOLUME_TABLE_i16.getD
               ((Channel.new 2000000 48000).update
                 ((SoundGenerator.new 2000000 48000).noise.update).2).2 0
           + OUTPUT_VOLUME_TABLE_i16.getD
               ((Channel.new 2000000 48000).update
                 ((SoundGenerator.new 2000000 48000).noise.update).2).2 0,
         { SoundGenerator.new 2000000 48000 with
             noise := ((SoundGenerator.new 2000000 48000).noise.update).1
             channels :=
               [((Channel.new 2000000 48000).update
                  ((SoundGenerator.new 2000000 48000).noise.update).2).1,
                ((Channel.new 2000000 48000).update
                  ((SoundGenerator.new 2000000 48000).noise.update).2).1,
                ((Channel.new 2000000 48000).update
                  ((SoundGenerator.new 2000000 48000).noise.update).2).1] }) :=
  next_sample_mixing_order (SoundGenerator.new 2000000 48000)
    (Channel.new 2000000 48000) (Channel.new 2000000 48000)
    (Channel.new 2000000 48000) rfl

theorem tone_reachable_inv (c s : Nat) (hc : 1 ≤ c) (hcs : c ≤ s * 8)
    (hs : s * 8 < 2 ^ 31) (t : ToneGenerator)
    (h : ToneReachable c s t) :
    t.clock_rate = c ∧ t.sample_rate_x8 = s * 8 ∧ t.period_min = 1
      ∧ c ≤ t.source ∧ t.source < 2 ^ 44
      ∧ 0 ≤ t.error ∧ t.error < 2 ^ 44 := by
  induction h with
  | init =>
    have h8 : s * 8 % 2 ^ 32 = s * 8 := Nat.mod_eq_of_lt (by omega)
    have h16 : s * 8 * 2 % 2 ^ 32 = s * 8 * 2 := Nat.mod_eq_of_lt (by omega)
    have hdiv : c / (s * 8 * 2) = 0 := Nat.div_eq_of_lt (by omega)
    refine ⟨?_, ?_, ?_, ?_, ?_, ?_, ?_⟩ <;>
      simp only [ToneGenerator.new, h8, h16, hdiv] <;>
      omega
  | set_step t t1 p h hset ih =>
    obtain ⟨i1, i2, i3, i4, i5, i6, i7⟩ := ih
    rw [ToneGenerator.setPeriod] at hset
    split at hset
    · cases hset
      have hmax : 1 ≤ max p t.period_min := by omega
      have hmax2 : max p t.period_min ≤ 4095 := by omega
      refine ⟨i1, i2, i3, ?_, ?_, i6, i7⟩
      · calc c ≤ s * 8 := hcs
          _ = s * 8 * 1 := by ring
          _ ≤ t.sample_rate_x8 * max p t.period_min := by
              rw [i2]
              exact Nat.mul_le_mul_left _ hmax
      · calc t.sample_rate_x8 * max p t.period_min
            ≤ (s * 8) * 4095 := by
              rw [i2]
              exact Nat.mul_le_mul_left _ hmax2
          _ < 2 ^ 44 := by nlinarith
    · cases hset
  | update_step t h ih =>
    obtain ⟨i1, i2, i3, i4, i5, i6, i7⟩ := ih
    have hck : t.clock_rate < 2 ^ 31 := by omega
    have hw1 : wrapInt 64 (t.error - (t.clock_rate : Int))
        = t.error - t.clock_rate := by
      apply wrapInt_eq_self 64 _ (by norm_num) <;> omega
    simp only [ToneGenerator.update]
    split
    · rename_i hneg
      rw [hw1] at hneg
      have hw2 : wrapInt 64 (wrapInt 64 (t.error - (t.clock_rate : Int))
          + (t.source : Int)) = t.error - t.clock_rate + t.source := by
        rw [hw1]
        apply wrapInt_eq_self 64 _ (by norm_num) <;> omega
      refine ⟨i1, i2, i3, i4, i5, ?_, ?_⟩
      · show (0 : Int) ≤ wrapInt 64
            (wrapInt 64 (t.error - (t.clock_rate : Int)) + (t.source : Int))
        rw [hw2]
        omega
      · show wrapInt 64
            (wrapInt 64 (t.error - (t.clock_rate : Int)) + (t.source : Int))
            < 2 ^ 44
        rw [hw2]
        omega
    · rename_i hpos
      rw [hw1] at hpos
      refine ⟨i1, i2, i3, i4, i5, ?_, ?_⟩
      · show (0 : Int) ≤ wrapInt 64 (t.error - (t.clock_rate : Int))
        rw [hw1]
        omega
      · show wrapInt 64 (t.error - (t.clock_rate : Int)) < 2 ^ 44
        rw [hw1]
        omega

/-- C1 (amended): when `clock_rate ≤ sample_rate × 8` (with
`sample_rate × 8` within `u32`/`i32` range), every reachable tone-divider
state satisfies `source ≥ clock_rate` and keeps its error accumulator
non-negative, so after an advance that toggles, the error accumulator is
non-negative again and a single toggle per advance call suffices.  The
repository's own test rates (clock 20,000,000, sample 2,500,000) satisfy
this side condition, but the cited case clock_rate = 1,789,772,
sample_rate = 44,100 does not, and there the claimed invariant
`source ≥ clock_rate` is false (see the counterexample theorem). -/
theorem tone_single_toggle_invariant (clock_rate sample_rate : Nat)
    (hc : 1 ≤ clock_rate) (hcs : clock_rate ≤ sample_rate * 8)
    (hs : sample_rate * 8 < 2 ^ 31) (t : ToneGenerator)
    (h : ToneReachable clock_rate sample_rate t) :
    clock_rate ≤ t.source ∧ 0 ≤ t.error
      ∧ 0 ≤ ((t.update).1).error := by
  obtain ⟨i1, i2, i3, i4, i5, i6, i7⟩ :=
    tone_reachable_inv clock_rate sample_rate hc hcs hs t h
  obtain ⟨j1, j2, j3, j4, j5, j6, j7⟩ :=
    tone_reachable_inv clock_rate sample_rate hc hcs hs (t.update).1
      (ToneReachable.update_step t h)
  exact ⟨i4, i6, j6⟩

/-- Witness for C1 (amended) at the repository test rates clock
20,000,000, sample 2,500,000, at the freshly constructed divider. -/
theorem tone_single_toggle_invariant_witness :
    20000000 ≤ (ToneGenerator.new 20000000 2500000).source
    ∧ 0 ≤ (ToneGenerator.new 20000000 2500000).error
    ∧ 0 ≤ (((ToneGenerator.new 20000000 2500000).update).1).error :=
  tone_single_toggle_invariant 20000000 2500000 (by decide) (by decide)
    (by decide) (ToneGenerator.new 20000000 2500000) ToneReachable.init

/-- Counterexample to C1 as stated: at the cited construction clock_rate =
1,789,772, sample_rate = 44,100, the initial (hence reachable) tone-divider
state has `source = 1,058,400 < 1,789,772 = clock_rate`, so the claimed
invariant `source ≥ clock_rate` does not hold in every reachable state. -/
theorem tone_source_lt_clock_at_cited_rates :
    ToneReachable 1789772 44100 (ToneGenerator.new 1789772 44100)
    ∧ (ToneGenerator.new 1789772 44100).source = 1058400
    ∧ (ToneGenerator.new 1789772 44100).source
        < (ToneGenerator.new 1789772 44100).clock_rate :=
  ⟨ToneReachable.init, by decide, by decide⟩

theorem Channel.setPeriod_volume (c c1 : Channel) (p : Nat)
    (h : c.setPeriod p = some c1) : c1.volume = c.volume := by
  rw [Channel.setPeriod, ToneGenerator.setPeriod] at h
  split at h
  · cases h
    rfl
  · cases h

theorem Channel.setVolume_lt (c c1 : Channel) (v : Nat)
    (h : c.setVolume v = some c1) : c1.volume < 16 := by
  rw [Channel.setVolume] at h
  split at h
  · cases h
    assumption
  · cases h

theorem mixChannels_mem (noise : Nat) (acc : Int) (l : List Channel) :
    ∀ x ∈ (mixChannels noise acc l).2, ∃ ch ∈ l, x = (ch.update noise).1 := by
  induction l generalizing acc with
  | nil =>
    intro x hx
    cases hx
  | cons c rest ih =>
    intro x hx
    rcases List.mem_cons.mp hx with hx | hx
    · exact ⟨c, List.mem_cons_self c rest, hx⟩
    · obtain ⟨ch, hm, he⟩ := ih _ x hx
      exact ⟨ch, List.mem_cons_of_mem c hm, he⟩

theorem engine_volume_inv (g : SoundGenerator) (h : EngineReachable g) :
    ∀ c ∈ g.channels, c.volume < 16 := by
  induction h with
  | init c s =>
    intro ch hch
    rw [SoundGenerator.new] at hch
    rw [List.eq_of_mem_replicate hch]
    norm_num [Channel.new]
  | period_step g g1 ch p h hs ih =>
    rw [SoundGenerator.setPeriod] at hs
    split at hs
    · rename_i hlt
      rcases hopt : g.channels[ch].setPeriod p with _ | c1
      · rw [hopt] at hs
        cases hs
      · rw [hopt] at hs
        cases hs
        intro x hx
        rcases List.mem_or_eq_of_mem_set hx with hmem | rfl
        · exact ih x hmem
        · rw [Channel.setPeriod_volume _ _ _ hopt]
          exact ih _ (List.getElem_mem hlt)
    · cases hs
  | volume_step g g1 ch v h hs ih =>
    rw [SoundGenerator.setVolume] at hs
    split at hs
    · rename_i hlt
      rcases hopt : g.channels[ch].setVolume v with _ | c1
      · rw [hopt] at hs
        cases hs
      · rw [hopt] at hs
        cases hs
        intro x hx
        rcases List.mem_or_eq_of_mem_set hx with hmem | rfl
        · exact ih x hmem
        · exact Channel.setVolume_lt _ _ _ hopt
    · cases hs
  | mode_step g g1 ch m h hs ih =>
    rw [SoundGenerator.setMode] at hs
    split at hs
    · rename_i hlt
      cases hs
      intro x hx
      rcases List.mem_or_eq_of_mem_set hx with hmem | rfl
      · exact ih x hmem
      · show (g.channels[ch].setMode m).volume < 16
        exact ih (g.channels[ch]) (List.getElem_mem hlt)
    · cases hs
  | noise_step g g1 p h hs ih =>
    rw [SoundGenerator.setNoisePeriod] at hs
    rcases hopt : g.noise.setPeriod p with _ | n1
    · rw [hopt] at hs
      cases hs
    · rw [hopt] at hs
      cases hs
      exact ih
  | sample_step g h ih =>
    intro x hx
    obtain ⟨ch, hm, rfl⟩ :=
      mixChannels_mem ((g.noise.update).2) 0 g.channels x hx
    rw [Channel.update_volume]
    exact ih ch hm

/-- C10: in every engine state reachable through the public operations,
each channel's stored volume is strictly below 16, a channel advance
returns either 0 or that stored volume, and hence the index used for the
(unchecked, in the source) 16-entry volume-table lookup inside
`next_sample` is always strictly below the table's length. -/
theorem volume_lookup_in_bounds (g : SoundGenerator)
    (h : EngineReachable g) :
    (∀ c ∈ g.channels, c.volume < 16)
    ∧ (∀ c ∈ g.channels, ∀ nb,
        ((c.update nb).2 = 0 ∨ (c.update nb).2 = c.volume)
        ∧ (c.update nb).2 < OUTPUT_VOLUME_TABLE_i16.length) := by
  have hv := engine_volume_inv g h
  refine ⟨hv, ?_⟩
  intro c hc nb
  have h02 : (c.update nb).2 = 0 ∨ (c.update nb).2 = c.volume := by
    rw [Channel.update_snd]
    split
    · exact Or.inl rfl
    · exact Or.inr rfl
  refine ⟨h02, ?_⟩
  have hlen : OUTPUT_VOLUME_TABLE_i16.length = 16 := by decide
  rw [hlen]
  rcases h02 with h0 | h0 <;> rw [h0]
  · norm_num
  · exact hv c hc

/-- Witness for C10 on the freshly constructed engine: its first channel
is reachable and stores a volume below 16. -/
theorem volume_lookup_in_bounds_witness :
    (Channel.new 2000000 48000).volume < 16 :=
  (volume_lookup_in_bounds (SoundGenerator.new 2000000 48000)
      (EngineReachable.init 2000000 48000)).1 (Channel.new 2000000 48000)
    (by decide)

theorem c9_step0 (o0 o1 o2 sh : Nat) (h0 : o0 < 2) (h1 : o1 < 2)
    (h2 : o2 < 2) :
    (c9State o0 o1 o2 0 sh).nextSampleI16
      = ((if o0 = 1 then (10922 : Int) else 0),
         c9State (o0 ^^^ 1) (o1 ^^^ 1) (o2 ^^^ 1) 20000000
           ((sh >>> 1) ||| (sh ^^^ sh >>> 3) <<< 15 % 2 ^ 16)) := by
  interval_cases o0 <;> interval_cases o1 <;> interval_cases o2 <;>
    (simp only [SoundGenerator.nextSampleI16, NoiseGenerator.update,
      mixChannels, Channel.update, ToneGenerator.update, c9State, c9Tone,
      Nat.cast_ofNat, TONE, NOISE]) <;>
    norm_num [wrapInt, apply_ite (fun x : Nat => x % 2)] <;>
    decide

theorem c9_step1 (o0 o1 o2 sh : Nat) (h0 : o0 < 2) (h1 : o1 < 2)
    (h2 : o2 < 2) :
    (c9State o0 o1 o2 20000000 sh).nextSampleI16
      = ((if o0 = 1 then (10922 : Int) else 0),
         c9State (o0 ^^^ 1) (o1 ^^^ 1) (o2 ^^^ 1) 0 sh) := by
  interval_cases o0 <;> interval_cases o1 <;> interval_cases o2 <;>
    (simp only [SoundGenerator.nextSampleI16, NoiseGenerator.update,
      mixChannels, Channel.update, ToneGenerator.update, c9State, c9Tone,
      Nat.cast_ofNat, TONE, NOISE]) <;>
    norm_num [wrapInt, apply_ite (fun x : Nat => x % 2)] <;>
    decide

theorem c9_xor_lt (o : Nat) (ho : o < 2) : o ^^^ 1 < 2 := by
  interval_cases o <;> decide

theorem c9_run (k : Nat) :
    ∀ o0 o1 o2 sh : Nat, o0 < 2 → o1 < 2 → o2 < 2 →
      runCount (2 * k) (c9State o0 o1 o2 0 sh) = (k, k) := by
  induction k with
  | zero =>
    intro o0 o1 o2 sh h0 h1 h2
    rfl
  | succ k ih =>
    intro o0 o1 o2 sh h0 h1 h2
    have e1 := c9_step0 o0 o1 o2 sh h0 h1 h2
    have e2 := c9_step1 (o0 ^^^ 1) (o1 ^^^ 1) (o2 ^^^ 1)
      ((sh >>> 1) ||| (sh ^^^ sh >>> 3) <<< 15 % 2 ^ 16)
      (c9_xor_lt o0 h0) (c9_xor_lt o1 h1) (c9_xor_lt o2 h2)
    have hrec := ih ((o0 ^^^ 1) ^^^ 1) ((o1 ^^^ 1) ^^^ 1) ((o2 ^^^ 1) ^^^ 1)
      ((sh >>> 1) ||| (sh ^^^ sh >>> 3) <<< 15 % 2 ^ 16)
      (c9_xor_lt _ (c9_xor_lt o0 h0)) (c9_xor_lt _ (c9_xor_lt o1 h1))
      (c9_xor_lt _ (c9_xor_lt o2 h2))
    rw [show 2 * (k + 1) = 2 * k + 1 + 1 from by ring]
    simp only [runCount, e1, e2, hrec]
    have ho : o0 = 0 ∨ o0 = 1 := by omega
    rcases ho with rfl | rfl
    · norm_num [show (0 : Nat) ^^^ 1 = 1 from rfl]
    · norm_num [show (1 : Nat) ^^^ 1 = 0 from rfl]

/-- C9: with clock rate 20,000,000, sample rate 2,500,000, channel 0 at
mode `TONE`, volume 15, period 1 (the minimum at these rates) and the
other channels silent, after one initial sample the next 2,500,000
consecutive `i16` samples contain exactly as many zero-valued samples as
non-zero-valued samples (1,250,000 of each) — the 50% duty cycle asserted
by the repository's test. -/
theorem test_duty_cycle_equal_counts :
    c9Config.map (fun g => runCount 2500000 ((g.nextSampleI16).2))
      = some (1250000, 1250000) := by
  have hstart : c9Config.map (fun g => (g.nextSampleI16).2)
      = some (c9State 0 0 0 0 1) := by decide
  rcases hc : c9Config with _ | g
  · rw [hc] at hstart
    cases hstart
  · rw [hc] at hstart
    simp only [Option.map_some'] at hstart ⊢
    rw [Option.some.inj hstart]
    rw [show (2500000 : Nat) = 2 * 1250000 from by norm_num]
    rw [c9_run 1250000 0 0 0 1 (by norm_num) (by norm_num) (by norm_num)]

end PsgLite
